import Mathlib

/-!
# Verification of the prescription risk-routing and review-escalation pipeline

A shallow embedding of `prescription_py_file.py`:

* the hash-linked ledger (`Block`, `PrescriptionBlockchain`),
* the misuse-risk scorer (`MisusePredictionModel`),
* the review queue (`ReviewQueue`),
* the escalation workflow (`EscalationWorkflow`),
* the submission pipeline (`PrescriptionTrackingSystem.submit_prescription`).

Modelling conventions:

* Timestamps are rationals measured in hours (the source stores ISO strings
  and compares/differences them chronologically; lexicographic comparison of
  same-format ISO strings coincides with the chronological order).  Python's
  ambient `datetime.now()` calls are made explicit as a `now : ℚ` argument.
* Python floats are modelled exactly over `ℚ`; every numeric literal of the
  source (`0.25`, `0.7`, ...) is the corresponding rational.
* SHA-256 over the canonical (`sort_keys=True`) JSON serialization of the
  block fields is modelled as a free, perfectly collision-resistant digest
  constructor `Digest.ofData`; the genesis sentinel `"0"` is `Digest.zero`.
* `print`-based reporting, the performance-metrics counters and outbound
  notification delivery are I/O effects with no influence on the ledger,
  queue or decision state, and are not part of the state model.
* Dictionary payloads are structured records; fields never read by the
  modelled logic (patient name, quantity, ...) are omitted.
-/

/-- Prescription fields (`prescription_data` dict) that the modelled pipeline
reads: `patient_id`, `medication`, `doctor_id`, `dosage`, `duration`. -/
structure Rx where
  patient_id : String
  medication : String
  doctor_id : String
  dosage : String
  duration : String
deriving DecidableEq, Repr

/-- The part of the validation collaborator's report that the core inspects
(`validation_report["is_valid"]`); remaining fields (confidence, errors,
warnings, checks) are opaque to routing and are omitted. -/
structure VReport where
  is_valid : Bool
deriving DecidableEq, Repr

/-- `risk_assessment` dict returned by `predict_misuse_risk`. -/
structure RiskOut where
  risk_score : ℚ
  risk_level : String
  risk_factors : List String
  recommendations : List String
  analysis_timestamp : ℚ
deriving DecidableEq, Repr

/-- `prescription_data` payload stored in a block: the genesis block stores
`{"type": "genesis"}`, ordinary blocks store the submitted prescription dict,
to which the moderate-risk path adds a `_warning_flag` marker. -/
inductive Payload where
  | genesis
  | entry (rx : Rx) (warning : Bool)
deriving DecidableEq, Repr

/-- `validation_report` stored in a block: the genesis block stores
`{"status": "genesis_block"}`; ordinary blocks store the validation report
with the misuse risk assessment embedded (`validation_report["misuse_risk"]`). -/
inductive ReportData where
  | genesisReport
  | report (v : VReport) (risk : RiskOut)
deriving DecidableEq, Repr

/-- SHA-256 digests, modelled as a free term algebra: `zero` is the genesis
sentinel string `"0"`, and `ofData i t d r p` is the digest of the canonical
JSON serialization of `{index, timestamp, prescription_data,
validation_report, previous_hash}` (collisions are impossible in the model:
the constructor is injective). -/
inductive Digest where
  | zero
  | ofData (index : ℕ) (timestamp : ℚ) (data : Payload) (report : ReportData)
      (prev : Digest)
deriving DecidableEq, Repr

/-- A block of the chain (`Block.__init__`). -/
structure Block where
  index : ℕ
  timestamp : ℚ
  prescription_data : Payload
  validation_report : ReportData
  previous_hash : Digest
  hash : Digest
deriving DecidableEq, Repr

/-- `Block.calculate_hash`: digest over all stored fields except `hash`. -/
def Block.calculate_hash (b : Block) : Digest :=
  Digest.ofData b.index b.timestamp b.prescription_data b.validation_report
    b.previous_hash

/-- Block construction (`Block.__init__` computes `self.hash` from the other
fields at creation time). -/
def mkBlock (index : ℕ) (timestamp : ℚ) (data : Payload) (r : ReportData)
    (prev : Digest) : Block :=
  { index := index, timestamp := timestamp, prescription_data := data,
    validation_report := r, previous_hash := prev,
    hash := Digest.ofData index timestamp data r prev }

/-- `create_genesis_block`: index 0, previous hash `"0"`. -/
def genesisBlock (t : ℚ) : Block :=
  mkBlock 0 t .genesis .genesisReport .zero

/-- `get_latest_block().hash` (the chain is never empty in the source: the
constructor creates the genesis block; the empty case is a dead default). -/
def latestHash (c : List Block) : Digest :=
  match c.getLast? with
  | some b => b.hash
  | none => Digest.zero

/-- `PrescriptionBlockchain.add_block`. -/
def add_block (c : List Block) (now : ℚ) (d : Payload) (r : ReportData) :
    List Block :=
  c ++ [mkBlock c.length now d r (latestHash c)]

/-- The loop of `is_chain_valid`, starting at position `i` with the
preceding block `prev`: returns the first failing index, `none` if all
checks pass.  (The source prints the failing index and returns `False`.) -/
def chainCheck : ℕ → Block → List Block → Option ℕ
  | _, _, [] => none
  | i, prev, b :: rest =>
    if b.hash ≠ b.calculate_hash then some i
    else if b.previous_hash ≠ prev.hash then some i
    else chainCheck (i + 1) b rest

/-- First index at which `is_chain_valid` fails, if any: the loop runs over
`range(1, len(chain))` and never re-checks the genesis block's own hash. -/
def chainFirstInvalid : List Block → Option ℕ
  | [] => none
  | g :: rest => chainCheck 1 g rest

/-- `PrescriptionBlockchain.is_chain_valid`. -/
def is_chain_valid (c : List Block) : Bool :=
  (chainFirstInvalid c).isNone

/-- `prescription_data.get("patient_id")` of a stored payload: the genesis
dict has no such key (`None`). -/
def pdPatient : Payload → Option String
  | .genesis => none
  | .entry rx _ => some rx.patient_id

/-- `prescription_data.get("medication", "")` of a stored payload. -/
def pdMed : Payload → String
  | .genesis => ""
  | .entry rx _ => rx.medication

/-- `prescription_data.get("doctor_id")` of a stored payload. -/
def pdDoctor : Payload → Option String
  | .genesis => none
  | .entry rx _ => some rx.doctor_id

/-- `prescription_data.get("dosage", "")` of a stored payload. -/
def pdDosage : Payload → String
  | .genesis => ""
  | .entry rx _ => rx.dosage

/-- `prescription_data.get("duration", "30 days")` of a stored payload. -/
def pdDuration : Payload → String
  | .genesis => "30 days"
  | .entry rx _ => rx.duration

/-- `PrescriptionBlockchain.get_patient_history`: all non-genesis blocks
(`chain[1:]`) whose payload carries the given patient id.  The source
returns `block.to_dict()` records; the model returns the blocks themselves
(`to_dict` is field-identical). -/
def get_patient_history (c : List Block) (pid : String) : List Block :=
  (c.drop 1).filter (fun b => decide (pdPatient b.prescription_data = some pid))

/-! ## String helpers (Python `str.lower`, `in`, and the two regexes) -/

/-- Python `str.lower()` (the medication names involved are ASCII). -/
def strLower (s : String) : String :=
  String.mk (s.data.map Char.toLower)

/-- Python `a in b` substring test. -/
def strIn (a b : String) : Bool :=
  b.data.tails.any (fun t => a.data.isPrefixOf t)

/-- The symmetric match used throughout the scorer:
`medication in record_med or record_med in medication` (both lowered). -/
def medMatches (cur rec : String) : Bool :=
  strIn cur rec || strIn rec cur

/-- Leading run of decimal digits of a character list. -/
def digitSpan : List Char → List Char × List Char
  | [] => ([], [])
  | c :: cs =>
    if c.isDigit then
      let (d, r) := digitSpan cs
      (c :: d, r)
    else ([], c :: cs)

/-- Numeric value of a digit run. -/
def digitsVal (l : List Char) : ℕ :=
  l.foldl (fun n c => 10 * n + (c.toNat - 48)) 0

/-- First match of the regex `(\d+(?:\.\d+)?)`: the integer digits and the
(possibly empty) fractional digits. -/
def firstNumber : List Char → Option (List Char × List Char)
  | [] => none
  | c :: cs =>
    if c.isDigit then
      let (d, r) := digitSpan cs
      match r with
      | '.' :: r2 =>
        match digitSpan r2 with
        | ([], _) => some (c :: d, [])
        | (f, _) => some (c :: d, f)
      | _ => some (c :: d, [])
    else firstNumber cs

/-- `MisusePredictionModel._extract_dosage_number`. -/
def extract_dosage_number (s : String) : Option ℚ :=
  (firstNumber s.data).map
    (fun p => (digitsVal p.1 : ℚ) + (digitsVal p.2 : ℚ) / 10 ^ p.2.length)

/-- First match of the regex `(\d+)`. -/
def firstIntRun : List Char → Option (List Char)
  | [] => none
  | c :: cs =>
    if c.isDigit then some (c :: (digitSpan cs).1)
    else firstIntRun cs

/-- `MisusePredictionModel._extract_duration_days` (default 30). -/
def extract_duration_days (s : String) : ℕ :=
  match firstIntRun s.data with
  | some d => digitsVal d
  | none => 30

/-! ## The misuse-risk scorer (`MisusePredictionModel`) -/

/-- `HIGH_RISK_MEDICATIONS`. -/
def HIGH_RISK_MEDICATIONS : List String :=
  ["Oxycodone", "Hydrocodone", "Fentanyl", "Morphine", "Codeine",
   "Xanax", "Alprazolam", "Diazepam", "Lorazepam", "Clonazepam",
   "Adderall", "Ritalin", "Vyvanse", "Ambien", "Tramadol"]

/-- `_analyze_prescription_frequency`: count of history records in the
trailing 30-day window ending at `now` (hours). -/
def analyze_prescription_frequency (now : ℚ) (history : List Block) :
    ℚ × List String :=
  if history = [] then (0, [])
  else
    let cutoff := now - 720
    let recent :=
      (history.filter (fun b => decide (cutoff ≤ b.timestamp))).length
    if recent ≥ 6 then
      (100, [s!"🚨 CRITICAL: {recent} prescriptions in 30 days (normal: 1-2)"])
    else if recent ≥ 4 then
      (70, [s!"⚠️ HIGH: {recent} prescriptions in 30 days"])
    else if recent ≥ 3 then
      (40, [s!"⚠️ MODERATE: {recent} prescriptions in 30 days"])
    else (0, [])

/-- The distinct prescribers seen for the same medication across the history
plus the current prescription (a Python `set`; `None` doctor ids of malformed
records are elements too, hence `Option String`). -/
def doctorsForMedication (history : List Block) (cur : Rx) :
    List (Option String) :=
  let med := strLower cur.medication
  (((history.filter
        (fun b => medMatches med (strLower (pdMed b.prescription_data)))).map
      (fun b => pdDoctor b.prescription_data)) ++ [some cur.doctor_id]).dedup

/-- `_analyze_doctor_shopping`. -/
def analyze_doctor_shopping (history : List Block) (cur : Rx) :
    ℚ × List String :=
  let n := (doctorsForMedication history cur).length
  if n ≥ 4 then
    (100, [s!"🚨 CRITICAL: {n} different doctors for same medication (doctor shopping)"])
  else if n ≥ 3 then
    (75, [s!"⚠️ HIGH: {n} different doctors for same medication"])
  else if n ≥ 2 then
    (40, [s!"⚠️ MODERATE: {n} doctors for same medication"])
  else (0, [])

/-- One-decimal rendering of a rational (`f"{x:.1f}"`), modelled up to digit
formatting; no modelled property depends on the rendered text. -/
def fmt1 (q : ℚ) : String :=
  toString (round (10 * q) : ℤ)

/-- `_analyze_dosage_pattern`.  Note the Python truthiness test
`if hist_dosage:` which drops historical dosages equal to 0. -/
def analyze_dosage_pattern (history : List Block) (cur : Rx) :
    ℚ × List String :=
  match extract_dosage_number cur.dosage with
  | none => (0, [])
  | some current_dosage =>
    let med := strLower cur.medication
    let historical_dosages :=
      (history.filter
          (fun b => medMatches med (strLower (pdMed b.prescription_data)))).filterMap
        (fun b =>
          match extract_dosage_number (pdDosage b.prescription_data) with
          | some d => if d ≠ 0 then some d else none
          | none => none)
    if historical_dosages = [] then (0, [])
    else
      let avg_dosage := historical_dosages.sum / historical_dosages.length
      let dosage_ratio := if avg_dosage > 0 then current_dosage / avg_dosage else 1
      let shown := fmt1 dosage_ratio
      if dosage_ratio ≥ 2.5 then
        (100, [s!"🚨 CRITICAL: Dosage {shown}x higher than patient's average"])
      else if dosage_ratio ≥ 2.0 then
        (70, [s!"⚠️ HIGH: Dosage {shown}x higher than usual"])
      else if dosage_ratio ≥ 1.5 then
        (40, [s!"⚠️ MODERATE: Dosage increase of {shown}x detected"])
      else (0, [])

/-- `timedelta.days`: whole days elapsed, rounded toward minus infinity
(times are in hours). -/
def daysBetween (now t : ℚ) : ℤ :=
  ⌊(now - t) / 24⌋

/-- `_analyze_refill_pattern`: the most recent (last, scanning the history
in reverse) record for the same medication sets the expected refill
interval. -/
def analyze_refill_pattern (now : ℚ) (history : List Block) (cur : Rx) :
    ℚ × List String :=
  let med := strLower cur.medication
  match history.reverse.find?
      (fun b => medMatches med (strLower (pdMed b.prescription_data))) with
  | none => (0, [])
  | some b =>
    let days_since_last := daysBetween now b.timestamp
    let expected_days := extract_duration_days (pdDuration b.prescription_data)
    if (days_since_last : ℚ) < expected_days * 0.5 then
      (100, [s!"🚨 CRITICAL: Refill after {days_since_last} days (expected: {expected_days})"])
    else if (days_since_last : ℚ) < expected_days * 0.7 then
      (70, [s!"⚠️ HIGH: Early refill at {days_since_last} days"])
    else if (days_since_last : ℚ) < expected_days * 0.9 then
      (40, [s!"⚠️ MODERATE: Slightly early refill"])
    else (0, [])

/-- `_analyze_medication_risk`: first listed high-risk medication occurring
(case-insensitively) in the current medication name. -/
def analyze_medication_risk (cur : Rx) : ℚ × List String :=
  match HIGH_RISK_MEDICATIONS.find?
      (fun m => strIn (strLower m) (strLower cur.medication)) with
  | some m => (100, [s!"⚠️ Controlled substance: {m}"])
  | none => (0, [])

/-- Whether the current medication matches the high-risk list. -/
def medHighRisk (cur : Rx) : Bool :=
  (HIGH_RISK_MEDICATIONS.find?
      (fun m => strIn (strLower m) (strLower cur.medication))).isSome

/-- The fixed weighted sum of the five sub-scores
(`self.weights` in `MisusePredictionModel.__init__`; weights sum to 1). -/
def combineScore (freq doctor dosage refill med : ℚ) : ℚ :=
  freq * 0.25 + doctor * 0.30 + dosage * 0.20 + refill * 0.15 + med * 0.10

/-- `_determine_risk_level`. -/
def determine_risk_level (score : ℚ) : String :=
  if score ≥ 61 then "HIGH RISK"
  else if score ≥ 31 then "MODERATE RISK"
  else "LOW RISK"

/-- `_generate_recommendations` (the `risk_factors` argument of the source
is never read). -/
def generate_recommendations (risk_level : String) : List String :=
  if risk_level = "HIGH RISK" then
    ["🔴 IMMEDIATE ACTION REQUIRED",
     "Contact prescribing physician for verification",
     "Review patient's complete prescription history",
     "Consider requiring in-person consultation",
     "Alert pharmacy manager for review"]
  else if risk_level = "MODERATE RISK" then
    ["🟡 Enhanced monitoring recommended",
     "Verify prescription with doctor's office",
     "Counsel patient on proper medication use",
     "Document any concerns in patient file"]
  else
    ["🟢 Standard dispensing procedures apply",
     "Provide routine patient counseling"]

/-- Python `round(x, 2)` on the values this scorer produces.  (Python uses
round-half-even; every score the weighted sum can produce is a multiple of
1/2, where half-even and ⌊x + 1/2⌋ agree, so the model uses the latter.) -/
def round2 (q : ℚ) : ℚ :=
  ((round (q * 100) : ℤ) : ℚ) / 100

/-- `MisusePredictionModel.predict_misuse_risk`.  The ambient clock read by
the source (`datetime.now()` in the frequency window, the refill analysis
and the `analysis_timestamp` field) is the explicit `now` argument. -/
def predict_misuse_risk (now : ℚ) (history : List Block) (cur : Rx) :
    RiskOut :=
  let f := analyze_prescription_frequency now history
  let d := analyze_doctor_shopping history cur
  let g := analyze_dosage_pattern history cur
  let r := analyze_refill_pattern now history cur
  let m := analyze_medication_risk cur
  let risk_score := combineScore f.1 d.1 g.1 r.1 m.1
  { risk_score := round2 risk_score
    risk_level := determine_risk_level risk_score
    risk_factors := f.2 ++ d.2 ++ g.2 ++ r.2 ++ m.2
    recommendations := generate_recommendations (determine_risk_level risk_score)
    analysis_timestamp := now }

/-! ## The review queue (`ReviewQueue`) -/

/-- A review note appended by `complete_review`. -/
structure RNote where
  timestamp : ℚ
  reviewer : String
  notes : String
deriving DecidableEq, Repr

/-- An `escalation_record` built by `_escalate_item`. -/
structure EscRecord where
  escalation_id : String
  timestamp : ℚ
  queue_id : String
  original_level : String
  escalated_to : String
  reason : String
  patient_id : String
  medication : String
deriving DecidableEq, Repr

/-- A queue item dict built by `add_to_queue`.  Keys that Python adds later
(`review_started`, `review_completed`, `final_decision`,
`review_duration_minutes`, `escalation_history`) are `Option`/list fields
that start out absent/empty.  `status` and `alert_level` are the literal
strings the source stores. -/
structure QItem where
  queue_id : String
  added_timestamp : ℚ
  priority : ℕ
  alert_level : String
  status : String
  prescription_data : Rx
  risk_assessment : RiskOut
  validation_report : VReport
  assigned_to : Option String
  review_notes : List RNote
  sla_deadline : ℚ
  review_started : Option ℚ
  review_completed : Option ℚ
  final_decision : Option String
  review_duration_minutes : Option ℤ
  escalation_history : List EscRecord
deriving DecidableEq, Repr

/-- `priority_map.get(alert_level, 3)`: CRITICAL=1, HIGH=2, MODERATE=3,
anything else 3. -/
def priorityMap (alert_level : String) : ℕ :=
  if alert_level = "CRITICAL" then 1
  else if alert_level = "HIGH" then 2
  else if alert_level = "MODERATE" then 3
  else 3

/-- Zero-padded five-digit rendering (`f"{n:05d}"`). -/
def pad5 (n : ℕ) : String :=
  let s := toString n
  String.mk (List.replicate (5 - s.length) '0') ++ s

/-- `f"RQ-{n:05d}"`. -/
def rqId (n : ℕ) : String := "RQ-" ++ pad5 n

/-- `f"ESC-{n:05d}"`. -/
def escId (n : ℕ) : String := "ESC-" ++ pad5 n

/-- The review queue plus the escalation workflow's log: `queue`,
`reviewed_items` and `queue_id_counter` of `ReviewQueue`, and
`escalation_log` of the `EscalationWorkflow` attached to it. -/
structure QSys where
  queue : List QItem
  reviewed_items : List QItem
  queue_id_counter : ℕ
  escalation_log : List EscRecord
deriving DecidableEq, Repr

/-- Freshly constructed `ReviewQueue()` / `EscalationWorkflow(...)`. -/
def initQSys : QSys := ⟨[], [], 1, []⟩

/-- The sort key of `self.queue.sort(key=lambda x: (x["priority"],
x["added_timestamp"]))`. -/
def qKey (it : QItem) : ℕ × ℚ := (it.priority, it.added_timestamp)

/-- Lexicographic order on sort keys (Python tuple comparison). -/
def kle (a b : ℕ × ℚ) : Prop :=
  a.1 < b.1 ∨ (a.1 = b.1 ∧ a.2 ≤ b.2)

instance : DecidableRel kle := fun a b => by
  unfold kle; infer_instance

/-- Queue items ordered by their sort key. -/
def keyLe (a b : QItem) : Prop := kle (qKey a) (qKey b)

instance : DecidableRel keyLe := fun a b => by
  unfold keyLe; infer_instance

/-- `ReviewQueue.add_to_queue`: build the item, append it, bump the counter,
then stable-sort the queue by `(priority, added_timestamp)`. -/
def add_to_queue (s : QSys) (now : ℚ) (rx : Rx) (risk : RiskOut)
    (vrep : VReport) (alert_level : String) : QSys × QItem :=
  let priority := priorityMap alert_level
  let item : QItem :=
    { queue_id := rqId s.queue_id_counter
      added_timestamp := now
      priority := priority
      alert_level := alert_level
      status := "pending"
      prescription_data := rx
      risk_assessment := risk
      validation_report := vrep
      assigned_to := none
      review_notes := []
      sla_deadline := now + (if priority = 1 then 2 else 24)
      review_started := none
      review_completed := none
      final_decision := none
      review_duration_minutes := none
      escalation_history := [] }
  ({ s with
      queue := List.insertionSort keyLe (s.queue ++ [item])
      queue_id_counter := s.queue_id_counter + 1 },
   item)

/-- `ReviewQueue.get_next_item`: first item of the (sorted) queue whose
status is `pending`. -/
def get_next_item (q : List QItem) : Option QItem :=
  q.find? (fun it => decide (it.status = "pending"))

/-- The loop of `assign_to_reviewer`: mutate the first item matching
`queue_id` with status `pending`; `none` when no such item exists. -/
def assignGo (qid reviewer : String) (now : ℚ) : List QItem → Option (List QItem)
  | [] => none
  | it :: rest =>
    if it.queue_id = qid ∧ it.status = "pending" then
      some ({ it with
                status := "under_review"
                assigned_to := some reviewer
                review_started := some now } :: rest)
    else (assignGo qid reviewer now rest).map (it :: ·)

/-- `ReviewQueue.assign_to_reviewer`. -/
def assign_to_reviewer (s : QSys) (qid reviewer : String) (now : ℚ) :
    QSys × Bool :=
  match assignGo qid reviewer now s.queue with
  | some q => ({ s with queue := q }, true)
  | none => (s, false)

/-- Python `int(x)`: truncation toward zero. -/
def pyInt (q : ℚ) : ℤ :=
  if 0 ≤ q then ⌊q⌋ else ⌈q⌉

/-- The updated item `complete_review` builds before popping it: status is
the caller-supplied `decision` string verbatim; duration is measured from
`review_started` when present, else from `added_timestamp` (in minutes). -/
def completeUpd (decision notes reviewer : String) (now : ℚ) (it : QItem) :
    QItem :=
  { it with
      status := decision
      review_completed := some now
      final_decision := some decision
      review_notes := it.review_notes ++ [⟨now, reviewer, notes⟩]
      review_duration_minutes :=
        some (pyInt ((now - it.review_started.getD it.added_timestamp) * 60)) }

/-- The loop of `complete_review`: find the first item matching `queue_id`
(any status), update it, pop it from the queue. -/
def completeGo (qid decision notes reviewer : String) (now : ℚ) :
    List QItem → Option (QItem × List QItem)
  | [] => none
  | it :: rest =>
    if it.queue_id = qid then
      some (completeUpd decision notes reviewer now it, rest)
    else (completeGo qid decision notes reviewer now rest).map
      (fun p => (p.1, it :: p.2))

/-- `ReviewQueue.complete_review`: on success the updated item moves to
`reviewed_items`; `none` models the `{"error": "Queue item not found"}`
result. -/
def complete_review (s : QSys) (qid decision notes reviewer : String)
    (now : ℚ) : QSys × Option QItem :=
  match completeGo qid decision notes reviewer now s.queue with
  | some (it, q) =>
    ({ s with queue := q, reviewed_items := s.reviewed_items ++ [it] }, some it)
  | none => (s, none)

/-! ## The escalation workflow (`EscalationWorkflow`) -/

/-- The per-item rule evaluation inside `check_escalations`, translated
statement by statement: rules 1–3 form an `if/elif/elif` chain writing
`(escalation_needed, escalation_reason, new_level)`; rule 4 (SLA) is a
separate `if` that overwrites `escalation_needed` and the reason, and
re-assigns `new_level` for MODERATE/HIGH items. -/
def escalationDecision (now : ℚ) (it : QItem) : Option (String × String) :=
  let time_in_queue := now - it.added_timestamp
  let step1 : Bool × String × String :=
    if it.alert_level = "CRITICAL" ∧ it.status = "pending" ∧ time_in_queue > 0.25 then
      (true, "CRITICAL item unassigned for >15 minutes", it.alert_level)
    else if it.alert_level = "HIGH" ∧ time_in_queue > 1 then
      (true, "HIGH priority item unreviewed for >1 hour", "CRITICAL")
    else if it.alert_level = "MODERATE" ∧ time_in_queue > 4 then
      (true, "MODERATE priority item unreviewed for >4 hours", "HIGH")
    else (false, "", it.alert_level)
  let step2 : Bool × String × String :=
    if now > it.sla_deadline ∧ it.status = "pending" then
      (true, "SLA deadline exceeded",
        if it.alert_level = "MODERATE" then "HIGH"
        else if it.alert_level = "HIGH" then "CRITICAL"
        else step1.2.2)
    else step1
  if step2.1 then some (step2.2.1, step2.2.2) else none

/-- The escalation record `_escalate_item` builds (`len(escalation_log)+1`
is the id counter at the time of the call). -/
def mkEscRecord (logLen : ℕ) (now : ℚ) (it : QItem)
    (reason new_level : String) : EscRecord :=
  { escalation_id := escId (logLen + 1)
    timestamp := now
    queue_id := it.queue_id
    original_level := it.alert_level
    escalated_to := new_level
    reason := reason
    patient_id := it.prescription_data.patient_id
    medication := it.prescription_data.medication }

/-- The sweep over the queue inside `check_escalations`: each active item
(status `pending` or `under_review`) is evaluated once; a matched item has
its `alert_level` mutated in place and an escalation record appended (the
stored numeric `priority` and the queue order are untouched).  `k` is the
current length of the escalation log. -/
def sweepGo (now : ℚ) : List QItem → ℕ → List QItem × List EscRecord
  | [], _ => ([], [])
  | it :: rest, k =>
    if it.status = "pending" ∨ it.status = "under_review" then
      match escalationDecision now it with
      | some (reason, new_level) =>
        let r := mkEscRecord k now it reason new_level
        let it' := { it with
                       alert_level := new_level
                       escalation_history := it.escalation_history ++ [r] }
        let rest' := sweepGo now rest (k + 1)
        (it' :: rest'.1, r :: rest'.2)
      | none =>
        let rest' := sweepGo now rest k
        (it :: rest'.1, rest'.2)
    else
      let rest' := sweepGo now rest k
      (it :: rest'.1, rest'.2)

/-- `EscalationWorkflow.check_escalations`: returns the new state and the
list of escalation records produced by this sweep. -/
def check_escalations (s : QSys) (now : ℚ) : QSys × List EscRecord :=
  let r := sweepGo now s.queue s.escalation_log.length
  ({ s with queue := r.1, escalation_log := s.escalation_log ++ r.2 }, r.2)

/-! ## The router and the submission pipeline -/

/-- The three routing outcomes of `submit_prescription`. -/
inductive Decision where
  | accept
  | acceptWithWarning
  | flag
deriving DecidableEq, Repr

/-- The routing branch structure of `submit_prescription`:
`should_flag = not is_valid or risk_level == "HIGH RISK"`, then
`elif risk_level == "MODERATE RISK"`, else accept. -/
def routeDecision (is_valid : Bool) (risk_level : String) : Decision :=
  if is_valid = false ∨ risk_level = "HIGH RISK" then .flag
  else if risk_level = "MODERATE RISK" then .acceptWithWarning
  else .accept

/-- The ledger-plus-queue state of `PrescriptionTrackingSystem`. -/
structure SysState where
  chain : List Block
  rq : QSys
deriving Repr

/-- The claim-relevant parts of the `result` dict of `submit_prescription`. -/
inductive SubmitOutcome where
  | flagged (alert_level : String) (queue_id : String)
  | success_with_warning (block_index : ℕ) (block_hash : Digest)
  | success (block_index : ℕ) (block_hash : Digest)
deriving DecidableEq, Repr

/-- `PrescriptionTrackingSystem.submit_prescription`, restricted to the
ledger/queue state (alert delivery, integration calls, metrics and printing
are I/O).  The validation report is the external validator's output. -/
def submit_prescription (st : SysState) (rx : Rx) (vrep : VReport)
    (now : ℚ) : SysState × SubmitOutcome :=
  let history := get_patient_history st.chain rx.patient_id
  let risk := predict_misuse_risk now history rx
  match routeDecision vrep.is_valid risk.risk_level with
  | .flag =>
    let alert_level := if risk.risk_score ≥ 80 then "CRITICAL" else "HIGH"
    let r := add_to_queue st.rq now rx risk vrep alert_level
    ({ st with rq := r.1 }, .flagged alert_level r.2.queue_id)
  | .acceptWithWarning =>
    let chain' := add_block st.chain now (.entry rx true) (.report vrep risk)
    ({ st with chain := chain' }, .success_with_warning st.chain.length (latestHash chain'))
  | .accept =>
    let chain' := add_block st.chain now (.entry rx false) (.report vrep risk)
    ({ st with chain := chain' }, .success st.chain.length (latestHash chain'))

/-- States of the review queue reachable through its public operations
(`submit_prescription` mutates the queue exclusively through
`add_to_queue`). -/
inductive QReachable : QSys → Prop
  | start : QReachable initQSys
  | add (s : QSys) (now : ℚ) (rx : Rx) (risk : RiskOut) (vrep : VReport)
      (lvl : String) : QReachable s →
      QReachable (add_to_queue s now rx risk vrep lvl).1
  | assignStep (s : QSys) (qid reviewer : String) (now : ℚ) :
      QReachable s → QReachable (assign_to_reviewer s qid reviewer now).1
  | completeStep (s : QSys) (qid d n r : String) (now : ℚ) :
      QReachable s → QReachable (complete_review s qid d n r now).1
  | sweep (s : QSys) (now : ℚ) :
      QReachable s → QReachable (check_escalations s now).1

/-! ## Auxiliary definitions for the statements -/

/-- A chain obtained from a fresh `PrescriptionBlockchain()` (genesis at
time `t0`) by a sequence of `add_block` calls. -/
def buildChain (t0 : ℚ) (apps : List (ℚ × Payload × ReportData)) :
    List Block :=
  apps.foldl (fun c a => add_block c a.1 a.2.1 a.2.2) [genesisBlock t0]

/-- Spec-side rule table: rules (a)–(c) of the escalation sweep evaluated in
precedence order, first match wins. -/
def firstMatch123 (now : ℚ) (it : QItem) : Option (String × String) :=
  let t := now - it.added_timestamp
  if it.alert_level = "CRITICAL" ∧ it.status = "pending" ∧ t > 0.25 then
    some ("CRITICAL item unassigned for >15 minutes", it.alert_level)
  else if it.alert_level = "HIGH" ∧ t > 1 then
    some ("HIGH priority item unreviewed for >1 hour", "CRITICAL")
  else if it.alert_level = "MODERATE" ∧ t > 4 then
    some ("MODERATE priority item unreviewed for >4 hours", "HIGH")
  else none

/-- Spec-side one-tier promotion (Moderate→High, High→Critical, Critical and
anything else unchanged). -/
def oneTierUp (lvl : String) : String :=
  if lvl = "MODERATE" then "HIGH"
  else if lvl = "HIGH" then "CRITICAL"
  else lvl

/-! ## Concrete instances used by witnesses and counterexamples -/

/-- A concrete prescription: ordinary medication, no parsable dosage. -/
def cexRx : Rx :=
  { patient_id := "P1", medication := "med", doctor_id := "D1",
    dosage := "", duration := "30 days" }

/-- A concrete risk assessment (placeholder payload for queue items). -/
def dummyRisk : RiskOut :=
  { risk_score := 0, risk_level := "LOW RISK", risk_factors := [],
    recommendations := [], analysis_timestamp := 0 }

/-- A one-record patient history: the same medication recorded at time 0. -/
def cexHist : List Block :=
  [mkBlock 1 0 (.entry cexRx false) (.report ⟨true⟩ dummyRisk) Digest.zero]

/-- A two-block chain: genesis at time 0, one prescription at time 1. -/
def cexChain : List Block :=
  buildChain 0 [(1, .entry cexRx false, .report ⟨true⟩ dummyRisk)]

/-- The genesis block with its content fields mutated out-of-band (payload
replaced) while its stored hash stays stale. -/
def cexGenBad : Block :=
  { genesisBlock 0 with prescription_data := .entry cexRx false }

/-- The ledger record at index 1 of `cexChain`. -/
def cexOldB1 : Block :=
  mkBlock 1 1 (.entry cexRx false) (.report ⟨true⟩ dummyRisk)
    (genesisBlock 0).hash

/-- An out-of-band rewrite of the record at index 1: content mutated
(timestamp 1 → 99) with the stored hash consistently recomputed. -/
def cexTailRewrite : Block :=
  mkBlock 1 99 (.entry cexRx false) (.report ⟨true⟩ dummyRisk)
    (genesisBlock 0).hash

/-- Queue after enqueueing a MODERATE item at time 0. -/
def cex4s1 : QSys :=
  (add_to_queue initQSys 0 cexRx dummyRisk ⟨true⟩ "MODERATE").1

/-- ... then a HIGH item at time 4. -/
def cex4s2 : QSys :=
  (add_to_queue cex4s1 4 cexRx dummyRisk ⟨true⟩ "HIGH").1

/-- ... then an escalation sweep at time 5 (the MODERATE item crosses the
4-hour rule and becomes HIGH; the younger HIGH item, one hour old, is
untouched). -/
def cex4 : QSys :=
  (check_escalations cex4s2 5).1

/-- The queue item the first enqueue of the C4 scenario produces. -/
def cex4item1 : QItem :=
  { queue_id := rqId 1, added_timestamp := 0, priority := 3,
    alert_level := "MODERATE", status := "pending",
    prescription_data := cexRx, risk_assessment := dummyRisk,
    validation_report := ⟨true⟩, assigned_to := none, review_notes := [],
    sla_deadline := 24, review_started := none, review_completed := none,
    final_decision := none, review_duration_minutes := none,
    escalation_history := [] }

/-- The queue item the second enqueue of the C4 scenario produces. -/
def cex4item2 : QItem :=
  { queue_id := rqId 2, added_timestamp := 4, priority := 2,
    alert_level := "HIGH", status := "pending",
    prescription_data := cexRx, risk_assessment := dummyRisk,
    validation_report := ⟨true⟩, assigned_to := none, review_notes := [],
    sla_deadline := 28, review_started := none, review_completed := none,
    final_decision := none, review_duration_minutes := none,
    escalation_history := [] }

/-- A MODERATE item enqueued at time 0 (SLA deadline 24h). -/
def cex5Item : QItem :=
  (add_to_queue initQSys 0 cexRx dummyRisk ⟨true⟩ "MODERATE").2

/-- A queue state holding one pending item (for the queue-operation
witnesses). -/
def wQSys : QSys :=
  (add_to_queue initQSys 0 cexRx dummyRisk ⟨true⟩ "HIGH").1

/-- The pending item of `wQSys`. -/
def wItem : QItem :=
  (add_to_queue initQSys 0 cexRx dummyRisk ⟨true⟩ "HIGH").2

/-- A stale-hash tamper of the record at index 1: payload replaced, stored
hash left unchanged. -/
def cexStale : Block :=
  { cexOldB1 with prescription_data := Payload.genesis }

/-- A tamper of the record at index 1 that changes the content (timestamp
1 → 99) and writes a fresh wrong stored hash (the genesis sentinel), so both
stored fields differ from the original record's and the stored hash is not
the digest of the stored content. -/
def cexFresh : Block :=
  { cexTailRewrite with hash := Digest.zero }

/-! ## Theorems -/

/-- C1: the routing decision of `submit_prescription` is total and exhaustive
over every (validation outcome, risk assessment) pair: if validation failed or
the risk level is HIGH RISK the decision is Flag; if validation passed and the
level is MODERATE RISK the decision is AcceptWithWarning; if validation passed
and the level is LOW RISK the decision is Accept; and exactly one of the three
conditions holds for every pair. -/
theorem c1_router_decision_table (v : Bool) (score : ℚ) :
    ((v = false ∨ determine_risk_level score = "HIGH RISK") →
        routeDecision v (determine_risk_level score) = .flag) ∧
    ((v = true ∧ determine_risk_level score = "MODERATE RISK") →
        routeDecision v (determine_risk_level score) = .acceptWithWarning) ∧
    ((v = true ∧ determine_risk_level score = "LOW RISK") →
        routeDecision v (determine_risk_level score) = .accept) ∧
    (((v = false ∨ determine_risk_level score = "HIGH RISK") ∧
        ¬(v = true ∧ determine_risk_level score = "MODERATE RISK") ∧
        ¬(v = true ∧ determine_risk_level score = "LOW RISK")) ∨
     (¬(v = false ∨ determine_risk_level score = "HIGH RISK") ∧
        (v = true ∧ determine_risk_level score = "MODERATE RISK") ∧
        ¬(v = true ∧ determine_risk_level score = "LOW RISK")) ∨
     (¬(v = false ∨ determine_risk_level score = "HIGH RISK") ∧
        ¬(v = true ∧ determine_risk_level score = "MODERATE RISK") ∧
        (v = true ∧ determine_risk_level score = "LOW RISK"))) := by
  unfold determine_risk_level routeDecision
  cases v <;> split_ifs <;> simp_all

theorem c1_witness :
    ((false = false ∨ determine_risk_level 0 = "HIGH RISK") →
        routeDecision false (determine_risk_level 0) = .flag) ∧
    ((false = true ∧ determine_risk_level 0 = "MODERATE RISK") →
        routeDecision false (determine_risk_level 0) = .acceptWithWarning) ∧
    ((false = true ∧ determine_risk_level 0 = "LOW RISK") →
        routeDecision false (determine_risk_level 0) = .accept) ∧
    (((false = false ∨ determine_risk_level 0 = "HIGH RISK") ∧
        ¬(false = true ∧ determine_risk_level 0 = "MODERATE RISK") ∧
        ¬(false = true ∧ determine_risk_level 0 = "LOW RISK")) ∨
     (¬(false = false ∨ determine_risk_level 0 = "HIGH RISK") ∧
        (false = true ∧ determine_risk_level 0 = "MODERATE RISK") ∧
        ¬(false = true ∧ determine_risk_level 0 = "LOW RISK")) ∨
     (¬(false = false ∨ determine_risk_level 0 = "HIGH RISK") ∧
        ¬(false = true ∧ determine_risk_level 0 = "MODERATE RISK") ∧
        (false = true ∧ determine_risk_level 0 = "LOW RISK"))) :=
  c1_router_decision_table false 0

/-- helper: round2 is monotone -/
theorem round2_mono {x y : ℚ} (h : x ≤ y) : round2 x ≤ round2 y := by
  unfold round2
  have h1 : (round (x * 100) : ℤ) ≤ round (y * 100) := by
    rw [round_eq, round_eq]
    exact Int.floor_mono (by linarith)
  have h2 : ((round (x * 100) : ℤ) : ℚ) ≤ ((round (y * 100) : ℤ) : ℚ) := by
    exact_mod_cast h1
  linarith

/-- C7: the weighted total risk score (and its rounded form reported as
`risk_score`) is monotonically non-decreasing in each of the five
sub-scores individually, holding the other four fixed. -/
theorem c7_score_monotone (f f' d d' g g' r r' m m' : ℚ) :
    (f ≤ f' → combineScore f d g r m ≤ combineScore f' d g r m ∧
        round2 (combineScore f d g r m) ≤ round2 (combineScore f' d g r m)) ∧
    (d ≤ d' → combineScore f d g r m ≤ combineScore f d' g r m ∧
        round2 (combineScore f d g r m) ≤ round2 (combineScore f d' g r m)) ∧
    (g ≤ g' → combineScore f d g r m ≤ combineScore f d g' r m ∧
        round2 (combineScore f d g r m) ≤ round2 (combineScore f d g' r m)) ∧
    (r ≤ r' → combineScore f d g r m ≤ combineScore f d g r' m ∧
        round2 (combineScore f d g r m) ≤ round2 (combineScore f d g r' m)) ∧
    (m ≤ m' → combineScore f d g r m ≤ combineScore f d g r m' ∧
        round2 (combineScore f d g r m) ≤ round2 (combineScore f d g r m')) := by
  refine ⟨fun h => ⟨by unfold combineScore; linarith,
            round2_mono (by unfold combineScore; linarith)⟩,
          fun h => ⟨by unfold combineScore; linarith,
            round2_mono (by unfold combineScore; linarith)⟩,
          fun h => ⟨by unfold combineScore; linarith,
            round2_mono (by unfold combineScore; linarith)⟩,
          fun h => ⟨by unfold combineScore; linarith,
            round2_mono (by unfold combineScore; linarith)⟩,
          fun h => ⟨by unfold combineScore; linarith,
            round2_mono (by unfold combineScore; linarith)⟩⟩

theorem c7_witness :
    combineScore 0 50 50 50 50 ≤ combineScore 100 50 50 50 50 ∧
    round2 (combineScore 0 50 50 50 50) ≤ round2 (combineScore 100 50 50 50 50) :=
  (c7_score_monotone 0 100 50 50 50 50 50 50 50 50).1 (by norm_num)

/-- C3 (amended): `predict_misuse_risk` is a deterministic function of
(history, submission, current clock time) with no randomness; the clock
influences score, level and factors only through the 30-day frequency window
and the refill-recency analysis: two calls at different times that agree on
those two sub-analyses produce identical score, level, factors and
recommendations.  The original purity claim over (history, submission) alone
is refuted by the counterexample: the source reads `datetime.now()`. -/
theorem c3_assess_clock_confinement (now1 now2 : ℚ) (h : List Block) (c : Rx)
    (hf : analyze_prescription_frequency now1 h =
        analyze_prescription_frequency now2 h)
    (hr : analyze_refill_pattern now1 h c = analyze_refill_pattern now2 h c) :
    (predict_misuse_risk now1 h c).risk_score =
        (predict_misuse_risk now2 h c).risk_score ∧
    (predict_misuse_risk now1 h c).risk_level =
        (predict_misuse_risk now2 h c).risk_level ∧
    (predict_misuse_risk now1 h c).risk_factors =
        (predict_misuse_risk now2 h c).risk_factors ∧
    (predict_misuse_risk now1 h c).recommendations =
        (predict_misuse_risk now2 h c).recommendations := by
  simp [predict_misuse_risk, hf, hr]

theorem c3_witness :
    (predict_misuse_risk 1 [] cexRx).risk_score =
        (predict_misuse_risk 2 [] cexRx).risk_score ∧
    (predict_misuse_risk 1 [] cexRx).risk_level =
        (predict_misuse_risk 2 [] cexRx).risk_level ∧
    (predict_misuse_risk 1 [] cexRx).risk_factors =
        (predict_misuse_risk 2 [] cexRx).risk_factors ∧
    (predict_misuse_risk 1 [] cexRx).recommendations =
        (predict_misuse_risk 2 [] cexRx).recommendations :=
  c3_assess_clock_confinement 1 2 [] cexRx rfl rfl

/-- C10: against an empty patient history, frequency, dosage and refill
sub-scores are 0 with no factors, the distinct-doctor count is 1 (scoring
0), so the total risk score is exactly 10 when the medication matches the
high-risk list and exactly 0 otherwise; the risk level is LOW RISK, and the
routing decision is Flag exactly when validation failed. -/
theorem c10_first_submission_low (now : ℚ) (rx : Rx) (v : Bool) :
    analyze_prescription_frequency now [] = (0, []) ∧
    (analyze_doctor_shopping [] rx).1 = 0 ∧
    (doctorsForMedication [] rx).length = 1 ∧
    (analyze_dosage_pattern [] rx).1 = 0 ∧
    (analyze_refill_pattern now [] rx).1 = 0 ∧
    (predict_misuse_risk now [] rx).risk_score =
      (if medHighRisk rx then 10 else 0) ∧
    (predict_misuse_risk now [] rx).risk_level = "LOW RISK" ∧
    (routeDecision v (predict_misuse_risk now [] rx).risk_level = .flag ↔
      v = false) := by
  have hdocs : doctorsForMedication [] rx = [some rx.doctor_id] := by
    simp [doctorsForMedication]
  have hdoc : analyze_doctor_shopping [] rx = (0, []) := by
    simp [analyze_doctor_shopping, hdocs]
  have hdos : analyze_dosage_pattern [] rx = (0, []) := by
    unfold analyze_dosage_pattern
    cases extract_dosage_number rx.dosage <;> simp
  have hscore :
      (predict_misuse_risk now [] rx).risk_score =
        (if medHighRisk rx then 10 else 0) ∧
      (predict_misuse_risk now [] rx).risk_level = "LOW RISK" := by
    cases hm : HIGH_RISK_MEDICATIONS.find?
        (fun m => strIn (strLower m) (strLower rx.medication)) with
    | none =>
      have hmed : analyze_medication_risk rx = (0, []) := by
        simp [analyze_medication_risk, hm]
      have hmh : medHighRisk rx = false := by simp [medHighRisk, hm]
      constructor
      · simp [predict_misuse_risk, hdoc, hdos, hmed, hmh,
          analyze_prescription_frequency, analyze_refill_pattern]
        norm_num [combineScore, round2, round_eq]
      · simp [predict_misuse_risk, hdoc, hdos, hmed,
          analyze_prescription_frequency, analyze_refill_pattern]
        norm_num [combineScore, determine_risk_level]
    | some m =>
      have hmed : analyze_medication_risk rx = (100,
          [s!"⚠️ Controlled substance: {m}"]) := by
        simp [analyze_medication_risk, hm]
      have hmh : medHighRisk rx = true := by simp [medHighRisk, hm]
      constructor
      · simp [predict_misuse_risk, hdoc, hdos, hmed, hmh,
          analyze_prescription_frequency, analyze_refill_pattern]
        norm_num [combineScore, round2, round_eq]
      · simp [predict_misuse_risk, hdoc, hdos, hmed,
          analyze_prescription_frequency, analyze_refill_pattern]
        norm_num [combineScore, determine_risk_level]
  refine ⟨rfl, by simp [hdoc], by simp [hdocs], by simp [hdos], rfl,
    hscore.1, hscore.2, ?_⟩
  rw [hscore.2]
  cases v <;> simp [routeDecision]

/-- C3 counterexample: identical (history, submission) evaluated at two
different clock times yield different scores (15 vs 0) and different risk
factor lists, refuting purity in the two stated inputs. -/
theorem c3_counterexample :
    (predict_misuse_risk 24 cexHist cexRx).risk_score = 15 ∧
    (predict_misuse_risk 2400 cexHist cexRx).risk_score = 0 ∧
    (predict_misuse_risk 24 cexHist cexRx).risk_factors.length = 1 ∧
    (predict_misuse_risk 2400 cexHist cexRx).risk_factors.length = 0 := by
  have hfreq1 : analyze_prescription_frequency 24 cexHist = (0, []) := by
    norm_num [analyze_prescription_frequency, cexHist, mkBlock, cexRx]
  have hfreq2 : analyze_prescription_frequency 2400 cexHist = (0, []) := by
    norm_num [analyze_prescription_frequency, cexHist, mkBlock, cexRx]
  have hdoc : analyze_doctor_shopping cexHist cexRx = (0, []) := by decide
  have hdos : analyze_dosage_pattern cexHist cexRx = (0, []) := rfl
  have hmed : analyze_medication_risk cexRx = (0, []) := by decide
  have hfind : cexHist.reverse.find?
      (fun b => medMatches (strLower cexRx.medication)
        (strLower (pdMed b.prescription_data))) =
      some (mkBlock 1 0 (.entry cexRx false) (.report ⟨true⟩ dummyRisk)
        Digest.zero) := by decide
  have hdur : extract_duration_days (pdDuration (Payload.entry cexRx false)) = 30 := by
    decide
  have hd1 : daysBetween 24 0 = 1 := by norm_num [daysBetween]
  have hd2 : daysBetween 2400 0 = 100 := by norm_num [daysBetween]
  have href1 : analyze_refill_pattern 24 cexHist cexRx =
      (100, [s!"🚨 CRITICAL: Refill after {(1 : ℤ)} days (expected: {(30 : ℕ)})"]) := by
    rw [analyze_refill_pattern, hfind]
    norm_num [mkBlock, hd1, hdur]
  have href2 : analyze_refill_pattern 2400 cexHist cexRx = (0, []) := by
    rw [analyze_refill_pattern, hfind]
    norm_num [mkBlock, hd2, hdur]
  refine ⟨?_, ?_, ?_, ?_⟩ <;>
    simp [predict_misuse_risk, hfreq1, hfreq2, hdoc, hdos, hmed, href1, href2] <;>
    norm_num [combineScore, round2, round_eq]

/-- helper: last element of a cons cell -/
theorem getLastQ_cons_eq {α : Type} (g : α) (rest : List α) :
    (g :: rest).getLast? = some (rest.getLastD g) := by
  induction rest generalizing g with
  | nil => rfl
  | cons r rs ih => rw [List.getLast?_cons_cons, ih, List.getLastD_cons]

/-- helper: validity of an extended chain -/
theorem chainCheck_append (l : List Block) (k : ℕ) (prev : Block) (b : Block) :
    chainCheck k prev (l ++ [b]) = none ↔
      chainCheck k prev l = none ∧ b.hash = b.calculate_hash ∧
        b.previous_hash = (l.getLastD prev).hash := by
  induction l generalizing k prev with
  | nil =>
    simp only [List.nil_append, chainCheck]
    split_ifs with h1 h2 <;> simp_all
  | cons x xs ih =>
    simp only [List.cons_append, chainCheck]
    split_ifs with h1 h2
    · simp
    · simp
    · simp only [List.append_eq]
      rw [ih, List.getLastD_cons]

/-- helper: appending a block keeps the chain valid -/
theorem is_chain_valid_add (c : List Block) (now : ℚ) (d : Payload)
    (r : ReportData) (hne : c ≠ []) (hv : is_chain_valid c = true) :
    is_chain_valid (add_block c now d r) = true := by
  obtain ⟨g, rest, rfl⟩ := List.exists_cons_of_ne_nil hne
  unfold is_chain_valid chainFirstInvalid add_block at *
  rw [Option.isNone_iff_eq_none] at hv ⊢
  simp only [List.cons_append]
  rw [chainCheck_append]
  refine ⟨hv, rfl, ?_⟩
  show latestHash (g :: rest) = (rest.getLastD g).hash
  unfold latestHash
  rw [getLastQ_cons_eq]

/-- helper: the field equalities a digest equality forces -/
theorem calc_hash_inj {a b : Block}
    (h : a.calculate_hash = b.calculate_hash) :
    a.index = b.index ∧ a.timestamp = b.timestamp ∧
    a.prescription_data = b.prescription_data ∧
    a.validation_report = b.validation_report ∧
    a.previous_hash = b.previous_hash := by
  unfold Block.calculate_hash at h
  simpa [Digest.ofData.injEq] using h

/-- helper: a block is determined by its digest and its stored hash -/
theorem block_ext {a b : Block}
    (hc : a.calculate_hash = b.calculate_hash) (hh : a.hash = b.hash) :
    a = b := by
  obtain ⟨h1, h2, h3, h4, h5⟩ := calc_hash_inj hc
  cases a; cases b; simp_all

/-- helper: a stale-hash tamper at position i is caught at position i -/
theorem chainCheck_set_tamper (l : List Block) (k : ℕ) (prev : Block)
    (i : ℕ) (bOld b' : Block) (hnone : chainCheck k prev l = none)
    (hget : l.get? i = some bOld) (hne : b' ≠ bOld)
    (hkind : b'.hash = bOld.hash ∨ b'.calculate_hash = bOld.calculate_hash) :
    chainCheck k prev (l.set i b') = some (k + i) := by
  induction l generalizing k prev i with
  | nil => simp at hget
  | cons x xs ih =>
    have hx : x.hash = x.calculate_hash ∧ x.previous_hash = prev.hash ∧
        chainCheck (k + 1) x xs = none := by
      unfold chainCheck at hnone
      split_ifs at hnone with h1 h2
      exact ⟨not_not.mp h1, not_not.mp h2, hnone⟩
    cases i with
    | zero =>
      have hbx : bOld = x := by simpa using hget.symm
      subst hbx
      have hb' : b'.hash ≠ b'.calculate_hash := by
        rcases hkind with hk | hk
        · intro he
          exact hne (block_ext (by rw [← he, hk, hx.1]) hk)
        · intro he
          exact hne (block_ext hk (by rw [he, hk, ← hx.1]))
      simp [chainCheck, hb']
    | succ j =>
      simp only [List.get?] at hget
      have hrec := ih (k + 1) x j hx.2.2 hget
      simp only [List.set]
      unfold chainCheck
      rw [if_neg (by simp [hx.1]), if_neg (by simp [hx.2.1]), hrec]
      congr 1
      omega

/-- helper: a record whose stored hash is not the digest of its stored
content, placed at position i of a verifying suffix, is caught at position
i -/
theorem chainCheck_set_badhash (l : List Block) (k : ℕ) (prev : Block)
    (i : ℕ) (b' : Block) (hnone : chainCheck k prev l = none)
    (hi : i < l.length) (hb' : b'.hash ≠ b'.calculate_hash) :
    chainCheck k prev (l.set i b') = some (k + i) := by
  induction l generalizing k prev i with
  | nil => simp at hi
  | cons x xs ih =>
    have hx : x.hash = x.calculate_hash ∧ x.previous_hash = prev.hash ∧
        chainCheck (k + 1) x xs = none := by
      unfold chainCheck at hnone
      split_ifs at hnone with h1 h2
      exact ⟨not_not.mp h1, not_not.mp h2, hnone⟩
    cases i with
    | zero =>
      simp [chainCheck, hb']
    | succ j =>
      have hrec := ih (k + 1) x j hx.2.2 (Nat.lt_of_succ_lt_succ hi)
      simp only [List.set]
      unfold chainCheck
      rw [if_neg (by simp [hx.1]), if_neg (by simp [hx.2.1]), hrec]
      congr 1
      omega

/-- C2 (amended): for every sequence of `add_block` calls on a fresh chain,
`is_chain_valid` returns true; and an out-of-band mutation of the stored
fields of any record at index ≥ 1 that does not consistently recompute the
stored hash over the mutated content — i.e. the resulting record's stored
hash differs from the digest of its stored fields — makes verification fail
deterministically at exactly the tampered index.  In particular (third
conjunct) any genuine mutation that leaves either the stored hash or the
content fields unchanged is caught there.  The original claim is refuted by
the counterexample: mutating the genesis record's content fields, or
rewriting a tail record with a consistently recomputed hash, leaves
`is_chain_valid` true. -/
theorem c2_ledger_integrity :
    (∀ (t0 : ℚ) (apps : List (ℚ × Payload × ReportData)),
        is_chain_valid (buildChain t0 apps) = true) ∧
    (∀ (c : List Block) (i : ℕ) (b' : Block),
        is_chain_valid c = true → 1 ≤ i → i < c.length →
        b'.hash ≠ b'.calculate_hash →
        chainFirstInvalid (c.set i b') = some i ∧
        is_chain_valid (c.set i b') = false) ∧
    (∀ (c : List Block) (i : ℕ) (bOld b' : Block),
        is_chain_valid c = true → 1 ≤ i → c.get? i = some bOld →
        b' ≠ bOld →
        (b'.hash = bOld.hash ∨ b'.calculate_hash = bOld.calculate_hash) →
        chainFirstInvalid (c.set i b') = some i ∧
        is_chain_valid (c.set i b') = false) := by
  refine ⟨?_, ?_, ?_⟩
  · intro t0 apps
    have key : ∀ (as : List (ℚ × Payload × ReportData)) (c : List Block),
        c ≠ [] → is_chain_valid c = true →
        is_chain_valid (as.foldl (fun c a => add_block c a.1 a.2.1 a.2.2) c) = true := by
      intro as
      induction as with
      | nil => intro c hne hv; exact hv
      | cons a tl ih =>
        intro c hne hv
        exact ih (add_block c a.1 a.2.1 a.2.2) (by simp [add_block])
          (is_chain_valid_add c a.1 a.2.1 a.2.2 hne hv)
    exact key apps [genesisBlock t0] (by simp) rfl
  · rintro c i b' hv hi hlen hb'
    match c, i, hi with
    | g :: rest, (j + 1), _ =>
      have hvn : chainCheck 1 g rest = none := by
        simpa [is_chain_valid, chainFirstInvalid,
          Option.isNone_iff_eq_none] using hv
      have hlen' : j < rest.length := by
        simpa [Nat.succ_lt_succ_iff] using hlen
      have := chainCheck_set_badhash rest 1 g j b' hvn hlen' hb'
      constructor
      · show chainCheck 1 g (rest.set j b') = some (j + 1)
        rw [this]
        congr 1
        omega
      · show (chainCheck 1 g (rest.set j b')).isNone = false
        rw [this]
        rfl
  · rintro c i bOld b' hv hi hget hne hkind
    match c, i, hi with
    | g :: rest, (j + 1), _ =>
      have hvn : chainCheck 1 g rest = none := by
        simpa [is_chain_valid, chainFirstInvalid,
          Option.isNone_iff_eq_none] using hv
      have hget' : rest.get? j = some bOld := by simpa using hget
      have := chainCheck_set_tamper rest 1 g j bOld b' hvn hget' hne hkind
      constructor
      · show chainCheck 1 g (rest.set j b') = some (j + 1)
        rw [this]
        congr 1
        omega
      · show (chainCheck 1 g (rest.set j b')).isNone = false
        rw [this]
        rfl

theorem c2_witness :
    is_chain_valid (buildChain 0 []) = true ∧
    chainFirstInvalid (cexChain.set 1 cexFresh) = some 1 ∧
    is_chain_valid (cexChain.set 1 cexFresh) = false ∧
    chainFirstInvalid (cexChain.set 1 cexStale) = some 1 ∧
    is_chain_valid (cexChain.set 1 cexStale) = false :=
  ⟨c2_ledger_integrity.1 0 [],
   (c2_ledger_integrity.2.1 cexChain 1 cexFresh (by decide)
      (by decide) (by decide) (by decide)).1,
   (c2_ledger_integrity.2.1 cexChain 1 cexFresh (by decide)
      (by decide) (by decide) (by decide)).2,
   (c2_ledger_integrity.2.2 cexChain 1 cexOldB1 cexStale (by decide)
      (by decide) (by decide) (by decide) (Or.inl (by decide))).1,
   (c2_ledger_integrity.2.2 cexChain 1 cexOldB1 cexStale (by decide)
      (by decide) (by decide) (by decide) (Or.inl (by decide))).2⟩

/-- C2 counterexample -/
theorem c2_counterexample :
    is_chain_valid cexChain = true ∧
    cexGenBad ≠ genesisBlock 0 ∧
    is_chain_valid (cexChain.set 0 cexGenBad) = true ∧
    cexChain.get? 1 = some cexOldB1 ∧
    cexTailRewrite ≠ cexOldB1 ∧
    is_chain_valid (cexChain.set 1 cexTailRewrite) = true := by
  refine ⟨by decide, by decide, by decide, by decide, by decide, by decide⟩

/-- helper: failure condition of the assign loop -/
theorem assignGo_eq_none_iff (qid reviewer : String) (now : ℚ)
    (l : List QItem) :
    assignGo qid reviewer now l = none ↔
      ∀ it ∈ l, ¬(it.queue_id = qid ∧ it.status = "pending") := by
  induction l with
  | nil => simp [assignGo]
  | cons x xs ih =>
    simp only [assignGo]
    split_ifs with h
    · simp [h]
    · simp only [Option.map_eq_none', ih, List.mem_cons]
      constructor
      · rintro hall it (rfl | hit)
        · exact h
        · exact hall it hit
      · intro hall it hit
        exact hall it (Or.inr hit)

/-- helper: success shape of the assign loop -/
theorem assignGo_found (qid reviewer : String) (now : ℚ) (l : List QItem)
    (it : QItem) (hnd : (l.map QItem.queue_id).Nodup) (hmem : it ∈ l)
    (hid : it.queue_id = qid) (hp : it.status = "pending") :
    ∃ l₁ l₂, l = l₁ ++ it :: l₂ ∧
      assignGo qid reviewer now l =
        some (l₁ ++ ({ it with
            status := "under_review"
            assigned_to := some reviewer
            review_started := some now } :: l₂)) := by
  induction l with
  | nil => simp at hmem
  | cons x xs ih =>
    rcases List.mem_cons.mp hmem with rfl | hmem'
    · refine ⟨[], xs, by simp, ?_⟩
      simp [assignGo, hid, hp]
    · have hx : ¬(x.queue_id = qid ∧ x.status = "pending") := by
        rintro ⟨hxq, _⟩
        have : it.queue_id ∈ xs.map QItem.queue_id :=
          List.mem_map_of_mem QItem.queue_id hmem'
        rw [hid, ← hxq] at this
        exact (List.nodup_cons.mp hnd).1 this
      obtain ⟨l₁, l₂, hsplit, hgo⟩ :=
        ih (List.nodup_cons.mp hnd).2 hmem'
      refine ⟨x :: l₁, l₂, by simp [hsplit], ?_⟩
      simp [assignGo, hx, hgo]

/-- C8: `assign_to_reviewer` transitions Pending → UnderReview only: when no
item with the given id is Pending it returns false and leaves the state
completely unchanged; when the identified item exists and is Pending it
returns true and exactly that item becomes "under_review" with the reviewer
and start time recorded, everything else unchanged. -/
theorem c8_assign_pending_only (s : QSys) (qid reviewer : String) (now : ℚ)
    (hnd : (s.queue.map QItem.queue_id).Nodup) :
    ((∀ it ∈ s.queue, ¬(it.queue_id = qid ∧ it.status = "pending")) →
        assign_to_reviewer s qid reviewer now = (s, false)) ∧
    (∀ it ∈ s.queue, it.queue_id = qid → it.status = "pending" →
        (assign_to_reviewer s qid reviewer now).2 = true ∧
        (assign_to_reviewer s qid reviewer now).1.reviewed_items =
          s.reviewed_items ∧
        (assign_to_reviewer s qid reviewer now).1.queue_id_counter =
          s.queue_id_counter ∧
        (assign_to_reviewer s qid reviewer now).1.escalation_log =
          s.escalation_log ∧
        ∃ l₁ l₂, s.queue = l₁ ++ it :: l₂ ∧
          (assign_to_reviewer s qid reviewer now).1.queue =
            l₁ ++ ({ it with
                status := "under_review"
                assigned_to := some reviewer
                review_started := some now } :: l₂)) := by
  constructor
  · intro hno
    have h := (assignGo_eq_none_iff qid reviewer now s.queue).mpr hno
    simp [assign_to_reviewer, h]
  · intro it hmem hid hp
    obtain ⟨l₁, l₂, hsplit, hgo⟩ :=
      assignGo_found qid reviewer now s.queue it hnd hmem hid hp
    simp [assign_to_reviewer, hgo]
    exact ⟨l₁, l₂, hsplit, rfl⟩

theorem c8_witness :
    (assign_to_reviewer wQSys "RQ-00001" "alice" 1).2 = true ∧
    ((∀ it ∈ wQSys.queue, ¬(it.queue_id = "RQ-00002" ∧ it.status = "pending")) →
      assign_to_reviewer wQSys "RQ-00002" "alice" 1 = (wQSys, false)) := by
  have hq : wQSys.queue = [wItem] := rfl
  constructor
  · exact ((c8_assign_pending_only wQSys "RQ-00001" "alice" 1
      (by rw [hq]; decide)).2 wItem (by rw [hq]; exact List.mem_singleton_self wItem)
      (by decide) (by decide)).1
  · exact (c8_assign_pending_only wQSys "RQ-00002" "alice" 1 (by rw [hq]; decide)).1

/-- helper: failure condition of the complete-review loop -/
theorem completeGo_eq_none_iff (qid d n r : String) (now : ℚ)
    (l : List QItem) :
    completeGo qid d n r now l = none ↔ ∀ it ∈ l, it.queue_id ≠ qid := by
  induction l with
  | nil => simp [completeGo]
  | cons x xs ih =>
    simp only [completeGo]
    split_ifs with h
    · simp [h]
    · simp only [Option.map_eq_none', ih, List.mem_cons]
      constructor
      · rintro hall it (rfl | hit)
        · exact h
        · exact hall it hit
      · intro hall it hit
        exact hall it (Or.inr hit)

/-- helper: success shape of the complete-review loop -/
theorem completeGo_found (qid d n r : String) (now : ℚ) (l : List QItem)
    (it : QItem) (hnd : (l.map QItem.queue_id).Nodup) (hmem : it ∈ l)
    (hid : it.queue_id = qid) :
    ∃ l₁ l₂, l = l₁ ++ it :: l₂ ∧
      completeGo qid d n r now l =
        some (completeUpd d n r now it, l₁ ++ l₂) := by
  induction l with
  | nil => simp at hmem
  | cons x xs ih =>
    rcases List.mem_cons.mp hmem with rfl | hmem'
    · refine ⟨[], xs, by simp, ?_⟩
      simp [completeGo, hid]
    · have hx : ¬(x.queue_id = qid) := by
        intro hxq
        have : it.queue_id ∈ xs.map QItem.queue_id :=
          List.mem_map_of_mem QItem.queue_id hmem'
        rw [hid, ← hxq] at this
        exact (List.nodup_cons.mp hnd).1 this
      obtain ⟨l₁, l₂, hsplit, hgo⟩ :=
        ih (List.nodup_cons.mp hnd).2 hmem'
      refine ⟨x :: l₁, l₂, by simp [hsplit], ?_⟩
      simp [completeGo, hx, hgo]

/-- C9: `complete_review` fails (error result, state unchanged) exactly when
the given queue id is absent from the active queue; when the item exists it
succeeds for every decision string — including items still Pending and
decisions other than "approved"/"rejected" — storing the caller-supplied
decision verbatim as the item's terminal status and moving the item into
the reviewed archive. -/
theorem c9_complete_review_spec (s : QSys) (qid d n r : String) (now : ℚ)
    (hnd : (s.queue.map QItem.queue_id).Nodup) :
    ((complete_review s qid d n r now).2 = none ↔
        ∀ it ∈ s.queue, it.queue_id ≠ qid) ∧
    ((∀ it ∈ s.queue, it.queue_id ≠ qid) →
        complete_review s qid d n r now = (s, none)) ∧
    (∀ it ∈ s.queue, it.queue_id = qid →
        (complete_review s qid d n r now).2 = some (completeUpd d n r now it) ∧
        (completeUpd d n r now it).status = d ∧
        (completeUpd d n r now it).final_decision = some d ∧
        (complete_review s qid d n r now).1.reviewed_items =
          s.reviewed_items ++ [completeUpd d n r now it] ∧
        ∃ l₁ l₂, s.queue = l₁ ++ it :: l₂ ∧
          (complete_review s qid d n r now).1.queue = l₁ ++ l₂) := by
  refine ⟨?_, ?_, ?_⟩
  · constructor
    · intro h2
      rw [← completeGo_eq_none_iff qid d n r now]
      unfold complete_review at h2
      cases hgo : completeGo qid d n r now s.queue with
      | none => rfl
      | some p => rw [hgo] at h2; simp at h2
    · intro hall
      have h := (completeGo_eq_none_iff qid d n r now s.queue).mpr hall
      simp [complete_review, h]
  · intro hall
    have h := (completeGo_eq_none_iff qid d n r now s.queue).mpr hall
    simp [complete_review, h]
  · intro it hmem hid
    obtain ⟨l₁, l₂, hsplit, hgo⟩ :=
      completeGo_found qid d n r now s.queue it hnd hmem hid
    refine ⟨by simp [complete_review, hgo], rfl, rfl,
      by simp [complete_review, hgo], l₁, l₂, hsplit,
      by simp [complete_review, hgo]⟩

theorem c9_witness :
    (complete_review wQSys "RQ-00001" "needs-followup" "note" "bob" 2).2 =
      some (completeUpd "needs-followup" "note" "bob" 2 wItem) ∧
    (completeUpd "needs-followup" "note" "bob" 2 wItem).status =
      "needs-followup" ∧
    ((complete_review wQSys "RQ-00002" "approved" "note" "bob" 2).2 = none ↔
      ∀ it ∈ wQSys.queue, it.queue_id ≠ "RQ-00002") := by
  have hq : wQSys.queue = [wItem] := rfl
  refine ⟨?_, ?_, ?_⟩
  · exact ((c9_complete_review_spec wQSys "RQ-00001" "needs-followup" "note"
      "bob" 2 (by rw [hq]; decide)).2.2 wItem
      (by rw [hq]; exact List.mem_singleton_self wItem) (by decide)).1
  · exact ((c9_complete_review_spec wQSys "RQ-00001" "needs-followup" "note"
      "bob" 2 (by rw [hq]; decide)).2.2 wItem
      (by rw [hq]; exact List.mem_singleton_self wItem) (by decide)).2.1
  · exact (c9_complete_review_spec wQSys "RQ-00002" "approved" "note" "bob" 2
      (by rw [hq]; decide)).1

/-- C6: whenever the routing decision is Flag, `submit_prescription` leaves
the ledger untouched, leaves the reviewed archive untouched, and creates
exactly one queue item (the new queue is a permutation of the new item
consed onto the old queue) in the "pending" state with numeric tier 1
(CRITICAL) if the assessed risk score is at least 80 and tier 2 (HIGH)
otherwise; the returned outcome reports that alert level and queue id. -/
theorem c6_flag_frame (st : SysState) (rx : Rx) (vrep : VReport) (now : ℚ)
    (hflag : routeDecision vrep.is_valid
        (predict_misuse_risk now (get_patient_history st.chain rx.patient_id)
          rx).risk_level = .flag) :
    (submit_prescription st rx vrep now).1.chain = st.chain ∧
    (submit_prescription st rx vrep now).1.rq.queue.Perm
      ((add_to_queue st.rq now rx
          (predict_misuse_risk now (get_patient_history st.chain rx.patient_id) rx)
          vrep
          (if (predict_misuse_risk now (get_patient_history st.chain rx.patient_id)
                rx).risk_score ≥ 80 then "CRITICAL" else "HIGH")).2 ::
        st.rq.queue) ∧
    (submit_prescription st rx vrep now).1.rq.reviewed_items =
      st.rq.reviewed_items ∧
    (add_to_queue st.rq now rx
        (predict_misuse_risk now (get_patient_history st.chain rx.patient_id) rx)
        vrep
        (if (predict_misuse_risk now (get_patient_history st.chain rx.patient_id)
              rx).risk_score ≥ 80 then "CRITICAL" else "HIGH")).2.status =
      "pending" ∧
    (add_to_queue st.rq now rx
        (predict_misuse_risk now (get_patient_history st.chain rx.patient_id) rx)
        vrep
        (if (predict_misuse_risk now (get_patient_history st.chain rx.patient_id)
              rx).risk_score ≥ 80 then "CRITICAL" else "HIGH")).2.priority =
      (if (predict_misuse_risk now (get_patient_history st.chain rx.patient_id)
            rx).risk_score ≥ 80 then 1 else 2) ∧
    (submit_prescription st rx vrep now).2 =
      .flagged
        (if (predict_misuse_risk now (get_patient_history st.chain rx.patient_id)
              rx).risk_score ≥ 80 then "CRITICAL" else "HIGH")
        (add_to_queue st.rq now rx
            (predict_misuse_risk now (get_patient_history st.chain rx.patient_id) rx)
            vrep
            (if (predict_misuse_risk now
                  (get_patient_history st.chain rx.patient_id) rx).risk_score ≥ 80
              then "CRITICAL" else "HIGH")).2.queue_id := by
  refine ⟨?_, ?_, ?_, ?_, ?_, ?_⟩
  · simp only [submit_prescription, hflag]
  · simp only [submit_prescription, hflag]
    exact (List.perm_insertionSort keyLe _).trans
      (List.perm_append_singleton _ _)
  · simp only [submit_prescription, hflag, add_to_queue]
  · simp [add_to_queue]
  · split_ifs with h
    · simp [add_to_queue, priorityMap, h]
    · simp [add_to_queue, priorityMap, h]
  · simp only [submit_prescription, hflag]

theorem c6_witness :
    (submit_prescription ⟨[genesisBlock 0], initQSys⟩ cexRx ⟨false⟩ 0).1.chain =
      [genesisBlock 0] ∧
    (submit_prescription ⟨[genesisBlock 0], initQSys⟩ cexRx ⟨false⟩ 0).1.rq.queue.Perm
      ((add_to_queue initQSys 0 cexRx
          (predict_misuse_risk 0 (get_patient_history [genesisBlock 0] cexRx.patient_id) cexRx)
          ⟨false⟩
          (if (predict_misuse_risk 0
                (get_patient_history [genesisBlock 0] cexRx.patient_id)
                cexRx).risk_score ≥ 80 then "CRITICAL" else "HIGH")).2 :: []) ∧
    (add_to_queue initQSys 0 cexRx
        (predict_misuse_risk 0 (get_patient_history [genesisBlock 0] cexRx.patient_id) cexRx)
        ⟨false⟩
        (if (predict_misuse_risk 0
              (get_patient_history [genesisBlock 0] cexRx.patient_id)
              cexRx).risk_score ≥ 80 then "CRITICAL" else "HIGH")).2.status =
      "pending" := by
  have h := c6_flag_frame ⟨[genesisBlock 0], initQSys⟩ cexRx ⟨false⟩ 0 rfl
  exact ⟨h.1, h.2.1, h.2.2.2.1⟩

/-- helper: the sweep emits exactly one record per active item whose rule
evaluation matches, in queue order -/
theorem sweepGo_ids (now : ℚ) (l : List QItem) (k : ℕ) :
    (sweepGo now l k).2.map EscRecord.queue_id =
      (l.filter (fun it =>
          decide ((it.status = "pending" ∨ it.status = "under_review") ∧
            (escalationDecision now it).isSome))).map QItem.queue_id := by
  induction l generalizing k with
  | nil => simp [sweepGo]
  | cons x xs ih =>
    simp only [sweepGo]
    split_ifs with hact
    · cases hdec : escalationDecision now x with
      | some p =>
        simp [List.filter_cons, hact, hdec, mkEscRecord, ih]
      | none =>
        simp [List.filter_cons, hact, hdec, ih]
    · simp [List.filter_cons, hact, ih]

/-- helper: the sweep preserves the queue's length -/
theorem sweepGo_len (now : ℚ) (l : List QItem) (k : ℕ) :
    (sweepGo now l k).1.length = l.length := by
  induction l generalizing k with
  | nil => simp [sweepGo]
  | cons x xs ih =>
    simp only [sweepGo]
    split_ifs with hact
    · cases hdec : escalationDecision now x with
      | some p => simp [hdec, ih]
      | none => simp [hdec, ih]
    · simp [ih]

/-- C5 (amended): per item, rules (a)–(c) of `check_escalations` are
evaluated in fixed precedence order with the first match winning among them,
while the SLA rule (d) is evaluated in addition for Pending items and, when
it matches, overrides the recorded reason and sets the tier one step upward
(Moderate→High, High→Critical, Critical and anything else unchanged); each
active item produces at most one escalation record per sweep and the queue
length is preserved.  The original "first matching rule wins over all four
rules" claim is refuted by the counterexample. -/
theorem c5_escalation_rules :
    (∀ (now : ℚ) (it : QItem),
        escalationDecision now it =
          if now > it.sla_deadline ∧ it.status = "pending" then
            some ("SLA deadline exceeded", oneTierUp it.alert_level)
          else firstMatch123 now it) ∧
    oneTierUp "MODERATE" = "HIGH" ∧
    oneTierUp "HIGH" = "CRITICAL" ∧
    oneTierUp "CRITICAL" = "CRITICAL" ∧
    (∀ (now : ℚ) (l : List QItem) (k : ℕ),
        (sweepGo now l k).2.map EscRecord.queue_id =
          (l.filter (fun it =>
              decide ((it.status = "pending" ∨ it.status = "under_review") ∧
                (escalationDecision now it).isSome))).map QItem.queue_id ∧
        (sweepGo now l k).1.length = l.length) := by
  refine ⟨?_, rfl, rfl, rfl, fun now l k => ⟨sweepGo_ids now l k, sweepGo_len now l k⟩⟩
  intro now it
  unfold escalationDecision firstMatch123 oneTierUp
  split_ifs <;> simp_all <;> split_ifs <;> simp_all

theorem c5_witness :
    escalationDecision 30 cex5Item =
      (if (30 : ℚ) > cex5Item.sla_deadline ∧ cex5Item.status = "pending" then
        some ("SLA deadline exceeded", oneTierUp cex5Item.alert_level)
      else firstMatch123 30 cex5Item) ∧
    (sweepGo 30 [cex5Item] 0).1.length = 1 :=
  ⟨c5_escalation_rules.1 30 cex5Item,
   (c5_escalation_rules.2.2.2.2 30 [cex5Item] 0).2⟩

/-- C5 counterexample: for a MODERATE Pending item 30 hours old (SLA 24h),
the first matching rule in precedence order is rule (c) with reason
"MODERATE priority item unreviewed for >4 hours", but the sweep records
"SLA deadline exceeded" — the later SLA rule overrides the first match. -/
theorem c5_counterexample :
    firstMatch123 30 cex5Item =
      some ("MODERATE priority item unreviewed for >4 hours", "HIGH") ∧
    escalationDecision 30 cex5Item =
      some ("SLA deadline exceeded", "HIGH") ∧
    ((check_escalations ⟨[cex5Item], [], 2, []⟩ 30).2.map EscRecord.reason) =
      ["SLA deadline exceeded"] ∧
    ("SLA deadline exceeded" : String) ≠
      "MODERATE priority item unreviewed for >4 hours" := by
  have h1 : firstMatch123 30 cex5Item =
      some ("MODERATE priority item unreviewed for >4 hours", "HIGH") := by
    norm_num [firstMatch123, cex5Item, add_to_queue, initQSys, priorityMap]
    all_goals decide
  have h2 : escalationDecision 30 cex5Item =
      some ("SLA deadline exceeded", "HIGH") := by
    norm_num [escalationDecision, cex5Item, add_to_queue, initQSys, priorityMap]
    all_goals decide
  have hstat : cex5Item.status = "pending" := rfl
  refine ⟨h1, h2, ?_, by decide⟩
  simp [check_escalations, sweepGo, hstat, h2, mkEscRecord]

instance : IsTotal QItem keyLe where
  total a b := by
    unfold keyLe kle
    rcases Nat.lt_trichotomy (qKey a).1 (qKey b).1 with h | h | h
    · exact Or.inl (Or.inl h)
    · rcases le_total (qKey a).2 (qKey b).2 with h2 | h2
      · exact Or.inl (Or.inr ⟨h, h2⟩)
      · exact Or.inr (Or.inr ⟨h.symm, h2⟩)
    · exact Or.inr (Or.inl h)

instance : IsTrans QItem keyLe where
  trans a b c hab hbc := by
    unfold keyLe kle at *
    rcases hab with h1 | ⟨h1, h1'⟩ <;> rcases hbc with h2 | ⟨h2, h2'⟩
    · exact Or.inl (h1.trans h2)
    · exact Or.inl (h2 ▸ h1)
    · exact Or.inl (h1 ▸ h2)
    · exact Or.inr ⟨h1.trans h2, h1'.trans h2'⟩

theorem keyLe_refl (a : QItem) : keyLe a a := Or.inr ⟨rfl, le_refl _⟩

/-- helper: sortedness only depends on the keys -/
theorem sorted_of_map_qKey_eq {l l' : List QItem}
    (hmap : l'.map qKey = l.map qKey) (hs : List.Sorted keyLe l) :
    List.Sorted keyLe l' := by
  have h0 : List.Pairwise (fun a b => kle (qKey a) (qKey b)) l := hs
  have h1 : List.Pairwise kle (l.map qKey) := List.pairwise_map.mpr h0
  have h2 : List.Pairwise kle (l'.map qKey) := hmap ▸ h1
  have h3 : List.Pairwise (fun a b => kle (qKey a) (qKey b)) l' :=
    List.pairwise_map.mp h2
  exact h3

/-- helper: assignment preserves the sort keys -/
theorem assignGo_map_qKey (qid reviewer : String) (now : ℚ)
    (l l' : List QItem) (h : assignGo qid reviewer now l = some l') :
    l'.map qKey = l.map qKey := by
  induction l generalizing l' with
  | nil => simp [assignGo] at h
  | cons x xs ih =>
    simp only [assignGo] at h
    split_ifs at h with hc
    · cases h
      simp [qKey]
    · rcases Option.map_eq_some'.mp h with ⟨xs', hxs', rfl⟩
      simp [ih xs' hxs']

/-- helper: completing a review removes one item -/
theorem completeGo_sublist (qid d n r : String) (now : ℚ)
    (l : List QItem) (p : QItem × List QItem)
    (h : completeGo qid d n r now l = some p) :
    p.2.Sublist l := by
  induction l generalizing p with
  | nil => simp [completeGo] at h
  | cons x xs ih =>
    simp only [completeGo] at h
    split_ifs at h with hc
    · cases h
      exact (List.sublist_cons_self x xs)
    · rcases Option.map_eq_some'.mp h with ⟨q, hq, rfl⟩
      exact List.Sublist.cons₂ x (ih q hq)

/-- helper: the escalation sweep preserves the sort keys -/
theorem sweepGo_map_qKey (now : ℚ) (l : List QItem) (k : ℕ) :
    (sweepGo now l k).1.map qKey = l.map qKey := by
  induction l generalizing k with
  | nil => simp [sweepGo]
  | cons x xs ih =>
    simp only [sweepGo]
    split_ifs with hact
    · cases hdec : escalationDecision now x with
      | some p => simp [hdec, qKey, ih]
      | none => simp [hdec, ih]
    · simp [ih]

/-- helper: every reachable queue is sorted by (priority, enqueue time) -/
theorem sorted_reachable (s : QSys) (h : QReachable s) :
    List.Sorted keyLe s.queue := by
  induction h with
  | start => exact List.sorted_nil
  | add s now rx risk vrep lvl _ _ =>
    exact List.sorted_insertionSort keyLe _
  | assignStep s qid reviewer now _ ih =>
    unfold assign_to_reviewer
    cases hgo : assignGo qid reviewer now s.queue with
    | some q =>
      simpa using sorted_of_map_qKey_eq (assignGo_map_qKey _ _ _ _ _ hgo) ih
    | none => simpa using ih
  | completeStep s qid d n r now _ ih =>
    unfold complete_review
    cases hgo : completeGo qid d n r now s.queue with
    | some p =>
      simpa using List.Pairwise.sublist (completeGo_sublist _ _ _ _ _ _ _ hgo) ih
    | none => simpa using ih
  | sweep s now _ ih =>
    exact sorted_of_map_qKey_eq (sweepGo_map_qKey now s.queue _) ih

/-- helper: what find-first-pending returns on a sorted queue -/
theorem nextItem_spec (l : List QItem) (hs : List.Sorted keyLe l) :
    (∀ it, get_next_item l = some it →
        it ∈ l ∧ it.status = "pending" ∧
        ∀ j ∈ l, j.status = "pending" → keyLe it j) ∧
    (get_next_item l = none → ∀ j ∈ l, j.status ≠ "pending") := by
  induction l with
  | nil => simp [get_next_item]
  | cons x xs ih =>
    have hx := List.rel_of_sorted_cons hs
    have ihs := ih (List.sorted_cons.mp hs).2
    by_cases hp : x.status = "pending"
    · constructor
      · intro it hit
        rw [get_next_item, List.find?_cons_of_pos _ (by simp [hp])] at hit
        cases hit
        refine ⟨List.mem_cons_self _ _, hp, ?_⟩
        intro j hj _
        rcases List.mem_cons.mp hj with rfl | hj'
        · exact keyLe_refl j
        · exact hx j hj'
      · intro hn
        rw [get_next_item, List.find?_cons_of_pos _ (by simp [hp])] at hn
        cases hn
    · constructor
      · intro it hit
        rw [get_next_item, List.find?_cons_of_neg _ (by simp [hp])] at hit
        obtain ⟨h0, h1, h2⟩ := ihs.1 it hit
        refine ⟨List.mem_cons_of_mem x h0, h1, ?_⟩
        intro j hj hjp
        rcases List.mem_cons.mp hj with rfl | hj'
        · exact absurd hjp hp
        · exact h2 j hj' hjp
      · intro hn
        rw [get_next_item, List.find?_cons_of_neg _ (by simp [hp])] at hn
        intro j hj
        rcases List.mem_cons.mp hj with rfl | hj'
        · exact hp
        · exact ihs.2 hn j hj'

/-- C4 (amended): after every queue mutation the active queue is sorted by
the stored (numeric priority, enqueue-time) key assigned at enqueue, and
`get_next_item` returns a Pending member that is minimal in that stored key
among all Pending items (none exactly when no Pending item exists, and never
a non-Pending item).  The original claim — minimality in the current tier
even after escalations — is refuted by the counterexample: escalation
mutates `alert_level` but neither the stored `priority` key nor the queue
order. -/
theorem c4_queue_order (s : QSys) (h : QReachable s) :
    List.Sorted keyLe s.queue ∧
    (∀ it, get_next_item s.queue = some it →
        it ∈ s.queue ∧ it.status = "pending" ∧
        ∀ j ∈ s.queue, j.status = "pending" → keyLe it j) ∧
    (get_next_item s.queue = none →
        ∀ j ∈ s.queue, j.status ≠ "pending") := by
  have hs := sorted_reachable s h
  exact ⟨hs, (nextItem_spec s.queue hs).1, (nextItem_spec s.queue hs).2⟩

theorem c4_witness :
    List.Sorted keyLe wQSys.queue ∧
    (∀ it, get_next_item wQSys.queue = some it →
        it ∈ wQSys.queue ∧ it.status = "pending" ∧
        ∀ j ∈ wQSys.queue, j.status = "pending" → keyLe it j) ∧
    (get_next_item wQSys.queue = none →
        ∀ j ∈ wQSys.queue, j.status ≠ "pending") :=
  c4_queue_order wQSys
    (QReachable.add initQSys 0 cexRx dummyRisk ⟨true⟩ "HIGH" QReachable.start)

/-- C4 counterexample: after enqueueing MODERATE at time 0 and HIGH at time
4 and sweeping at time 5, both pending items have current tier HIGH (the
first was escalated), the earlier-enqueued item has the lexicographically
smaller (current tier, enqueue-time) key (2,0) < (2,4), yet `get_next_item`
returns the other item — the escalated item was not repositioned. -/
theorem c4_counterexample :
    (cex4.queue.map (fun it =>
        (it.queue_id, priorityMap it.alert_level, it.added_timestamp,
          it.status))) =
      [("RQ-00002", 2, (4 : ℚ), "pending"),
       ("RQ-00001", 2, (0 : ℚ), "pending")] ∧
    ((get_next_item cex4.queue).map (fun it =>
        (it.queue_id, priorityMap it.alert_level, it.added_timestamp))) =
      some ("RQ-00002", 2, (4 : ℚ)) ∧
    ¬ kle (2, (4 : ℚ)) (2, (0 : ℚ)) := by
  have hi1 : (add_to_queue initQSys 0 cexRx dummyRisk ⟨true⟩ "MODERATE").2 =
      cex4item1 := by
    simp [add_to_queue, initQSys, priorityMap, cex4item1]
  have hi2 : (add_to_queue cex4s1 4 cexRx dummyRisk ⟨true⟩ "HIGH").2 =
      cex4item2 := by
    have hc : cex4s1.queue_id_counter = 2 := rfl
    simp [add_to_queue, hc, priorityMap, cex4item2]
    norm_num
  have hq : cex4s2.queue = [cex4item2, cex4item1] := by
    have hstep : cex4s2.queue = List.insertionSort keyLe (cex4s1.queue ++
        [(add_to_queue cex4s1 4 cexRx dummyRisk ⟨true⟩ "HIGH").2]) := rfl
    have hq1 : cex4s1.queue =
        [(add_to_queue initQSys 0 cexRx dummyRisk ⟨true⟩ "MODERATE").2] := rfl
    have hknot : ¬ keyLe cex4item1 cex4item2 := by decide
    rw [hstep, hq1, hi1, hi2]
    simp [List.insertionSort, List.orderedInsert, hknot]
  have hd1 : escalationDecision 5 cex4item1 =
      some ("MODERATE priority item unreviewed for >4 hours", "HIGH") := by
    norm_num [escalationDecision, cex4item1]
    all_goals decide
  have hd2 : escalationDecision 5 cex4item2 = none := by
    norm_num [escalationDecision, cex4item2]
    all_goals decide
  have ha1 : cex4item1.status = "pending" ∨ cex4item1.status = "under_review" :=
    Or.inl rfl
  have ha2 : cex4item2.status = "pending" ∨ cex4item2.status = "under_review" :=
    Or.inl rfl
  have he1 : cex4item1.escalation_history = [] := rfl
  have hsw : cex4.queue =
      [cex4item2,
       { cex4item1 with
           alert_level := "HIGH"
           escalation_history :=
             [mkEscRecord 0 5 cex4item1
               "MODERATE priority item unreviewed for >4 hours" "HIGH"] }] := by
    show (check_escalations cex4s2 5).1.queue = _
    unfold check_escalations
    have hl : cex4s2.escalation_log.length = 0 := rfl
    rw [hq, hl]
    simp [sweepGo, hd1, hd2, ha1, ha2, he1]
  rw [hsw]
  refine ⟨?_, ?_, ?_⟩
  · decide
  · decide
  · norm_num [kle]
